import Mathlib

/-!
Shallow embedding of the `TileGeometryLoader` component of harp.gl
(mapview geometry loading), together with theorems checking the
natural-language specification against the code.

The embedding follows `TileGeometryLoader` (static helpers
`compileGeometryKind` / `prepareAvailableGeometryKinds`, the per-tile
controller state, `update`, `reset`, `finish`, `dispose`,
`setDecodedTile`, `setGeometryKinds`, `compareGeometryKinds`,
`prepareForRender`, the queued action `prepare`, and
`discardNeedlessTile`).  External collaborators (the tile, the visible
tile set, the geometry creator, the task queue, statistics) are modelled
by explicit state fields and call counters, as the spec treats them as
opaque interfaces.
-/

namespace HarpGeometryLoader

/-- Modelled from the spec: `GeometryKind` is defined in
`harp-datasource-protocol`, which is not part of this excerpt.  The spec
describes it as "a coarse category (area, line, building, label, all)". -/
inductive GeometryKind where
  | Area
  | Line
  | Building
  | Label
  | All
deriving DecidableEq

/-- Modelled from the spec: `GeometryKindSet` is defined in
`harp-datasource-protocol`, which is not part of this excerpt.  The spec
describes it as "an unordered collection of GeometryKind values with set
semantics (membership, containment, clear); equal by content, not
identity".  Because `compareGeometryKinds` in the source tests JavaScript
reference identity (`===`) between set objects, every set object carries
an allocation identity `id` in addition to its contents. -/
structure GKSet where
  id : Nat
  elems : Finset GeometryKind
deriving DecidableEq

/-- Size of a set, mirroring the JavaScript `Set.size` accessor. -/
def GKSet.size (s : GKSet) : Nat :=
  s.elems.card

/-- Modelled from the spec: `GeometryKindSet.has` applied to a whole set
(as done by `compareGeometryKinds` in the source) is the containment
test: the receiver contains every element of the argument.  The spec
says the non-empty sets "must be compared by containment". -/
def GKSet.hasAllOf (a b : GKSet) : Bool :=
  decide (b.elems ⊆ a.elems)

/-- Clearing a set empties it in place: the object identity is kept and
the contents become empty, mirroring JavaScript `Set.clear`. -/
def GKSet.clear (s : GKSet) : GKSet :=
  { s with elems := ∅ }

/-- Modelled from the spec: the technique type predicates
(`isFillTechnique`, `isLineTechnique`, ...) live in
`harp-datasource-protocol` and classify a technique by its structural
type; the spec calls this "the technique's structural classification".
Each name denotes one family. -/
inductive TechniqueName where
  | fill
  | line
  | solidLine
  | segments
  | extrudedLine
  | extrudedPolygon
  | poi
  | lineMarker
  | text
  | other
deriving DecidableEq

/-- The value stored in a technique's optional `kind` field: a single
kind, a raw array of kinds (to be normalized), or an already-normalized
set. -/
inductive TechKind where
  | single (k : GeometryKind)
  | arr (ks : List GeometryKind)
  | set (s : GKSet)
deriving DecidableEq

/-- A technique: a structural classification plus the optional `kind`
field that `compileGeometryKind` reads and memoizes into. -/
structure Technique where
  tname : TechniqueName
  kind : Option TechKind
deriving DecidableEq

def isFillTechnique (t : Technique) : Bool := t.tname = TechniqueName.fill
def isLineTechnique (t : Technique) : Bool := t.tname = TechniqueName.line
def isSolidLineTechnique (t : Technique) : Bool := t.tname = TechniqueName.solidLine
def isSegmentsTechnique (t : Technique) : Bool := t.tname = TechniqueName.segments
def isExtrudedLineTechnique (t : Technique) : Bool := t.tname = TechniqueName.extrudedLine
def isExtrudedPolygonTechnique (t : Technique) : Bool := t.tname = TechniqueName.extrudedPolygon
def isPoiTechnique (t : Technique) : Bool := t.tname = TechniqueName.poi
def isLineMarkerTechnique (t : Technique) : Bool := t.tname = TechniqueName.lineMarker
def isTextTechnique (t : Technique) : Bool := t.tname = TechniqueName.text

/-- Result of `compileGeometryKind`: either a single `GeometryKind` or a
`GeometryKindSet`, matching the TypeScript return type
`GeometryKind | GeometryKindSet`. -/
inductive KindOrSet where
  | kind (k : GeometryKind)
  | set (s : GKSet)
deriving DecidableEq

/-- A decoded tile payload: the list of techniques is all the loader
logic reads (besides opaque geometry buffers). -/
structure DecodedTile where
  techniques : List Technique
deriving DecidableEq

/-- Embedding of `TileGeometryLoader.compileGeometryKind`.  Reads
`technique.kind`; when absent derives a default from the technique's
structural classification (in the source's `if` order) and writes it
back; when a raw array, allocates a new `GeometryKindSet` from it (the
`fresh` counter supplies the new object's identity) and writes it back;
otherwise returns the stored value unchanged.  Returns the (possibly
mutated) technique, the result, and the updated allocation counter. -/
def compileGeometryKind (t : Technique) (fresh : Nat) :
    Technique × KindOrSet × Nat :=
  match t.kind with
  | none =>
      let k :=
        if isFillTechnique t then GeometryKind.Area
        else if isLineTechnique t || isSolidLineTechnique t ||
                isSegmentsTechnique t || isExtrudedLineTechnique t then
          GeometryKind.Line
        else if isExtrudedPolygonTechnique t then GeometryKind.Building
        else if isPoiTechnique t || isLineMarkerTechnique t ||
                isTextTechnique t then
          GeometryKind.Label
        else GeometryKind.All
      ({ t with kind := some (TechKind.single k) }, KindOrSet.kind k, fresh)
  | some (TechKind.arr ks) =>
      let s : GKSet := { id := fresh, elems := ks.toFinset }
      ({ t with kind := some (TechKind.set s) }, KindOrSet.set s, fresh + 1)
  | some (TechKind.single k) => (t, KindOrSet.kind k, fresh)
  | some (TechKind.set s) => (t, KindOrSet.set s, fresh)

/-- Helper for `prepareAvailableGeometryKinds`: walks the technique
list, compiling each technique and accumulating the found kinds, as the
source's `for` loop does over `decodedTile.techniques`. -/
def prepareKindsAux :
    List Technique → Nat → Finset GeometryKind →
    List Technique × Finset GeometryKind × Nat
  | [], fresh, acc => ([], acc, fresh)
  | t :: ts, fresh, acc =>
      let r := compileGeometryKind t fresh
      let acc2 :=
        match r.2.1 with
        | KindOrSet.kind k => insert k acc
        | KindOrSet.set s => s.elems ∪ acc
      let rest := prepareKindsAux ts r.2.2 acc2
      (r.1 :: rest.1, rest.2.1, rest.2.2)

/-- Embedding of `TileGeometryLoader.prepareAvailableGeometryKinds`:
allocates a fresh `GeometryKindSet`, compiles every technique of the
decoded tile (memoizing kinds into the techniques) and adds each found
kind to the set.  Returns the found set, the mutated payload and the
updated allocation counter. -/
def prepareAvailableGeometryKinds (dt : DecodedTile) (fresh : Nat) :
    GKSet × DecodedTile × Nat :=
  let r := prepareKindsAux dt.techniques (fresh + 1) ∅
  ({ id := fresh, elems := r.2.1 }, { techniques := r.1 }, r.2.2)

/-- The controller's private fields, mirroring `TileGeometryLoader`'s
`m_decodedTile`, `m_isFinished`, `m_availableGeometryKinds`,
`m_enabledKinds` and `m_disabledKinds` (the priority hint plays no role
in the claims about the lifecycle and is omitted). -/
structure LoaderState where
  decodedTile : Option DecodedTile
  isFinished : Bool
  availableGeometryKinds : Option GKSet
  enabledKinds : Option GKSet
  disabledKinds : Option GKSet
deriving DecidableEq

/-- Embedding of the `geometryCreationPending` getter: loading not yet
finished and a decoded tile captured. -/
def geometryCreationPending (lo : LoaderState) : Bool :=
  !lo.isFinished && lo.decodedTile.isSome

/-- The externally owned tile, as far as the loader reads it:
`isVisible`, `disposed`, `decodedTile` and whether
`tileLoader?.isFinished` holds (false also covers an absent tile
loader, as optional chaining yields `undefined`). -/
structure TileState where
  isVisible : Bool
  disposed : Bool
  decodedTile : Option DecodedTile
  tileLoaderFinished : Bool
deriving DecidableEq

/-- The world the loader acts on: its own state, the tile, the
allocation counter for fresh `GeometryKindSet` objects, and observation
counters for every call the loader makes into its external
collaborators (the task queue, the visible tile set, the tile's
notifications, the geometry creator). -/
structure World where
  loader : LoaderState
  tile : TileState
  freshId : Nat
  queueLen : Nat
  disposeTileCalls : Nat
  loadingFinishedCalls : Nat
  removeDecodedTileCalls : Nat
  processTechniquesCalls : Nat
  initDecodedTileCalls : Nat
  createAllGeometriesCalls : Nat
  tileClearCalls : Nat
  requestUpdateCalls : Nat
deriving DecidableEq

/-- Embedding of the private `finish()`: notifies the tile
(`loadingFinished`, `removeDecodedTile` — the latter releasing the
tile's decoded payload, per the spec "any transient decoded data may be
released"), clears the captured payload and sets the finished flag. -/
def finishLoading (w : World) : World :=
  { w with
    loadingFinishedCalls := w.loadingFinishedCalls + 1
    removeDecodedTileCalls := w.removeDecodedTileCalls + 1
    tile := { w.tile with decodedTile := none }
    loader := { w.loader with decodedTile := none, isFinished := true } }

/-- Embedding of `discardNeedlessTile`: an invisible tile is disposed
from the visible tile set and the loader finishes; an already disposed
tile only finishes.  Returns the new world and whether the tile was
discarded (the source's boolean result). -/
def discardNeedlessTile (w : World) : World × Bool :=
  if !w.tile.isVisible then
    (finishLoading { w with disposeTileCalls := w.disposeTileCalls + 1 }, true)
  else if w.tile.disposed then
    (finishLoading w, true)
  else
    (w, false)

/-- Embedding of `reset()`: clears (in place) whichever of the
available/enabled/disabled kind sets exist, drops the captured payload
and lowers the finished flag. -/
def resetLoader (lo : LoaderState) : LoaderState :=
  { lo with
    availableGeometryKinds := lo.availableGeometryKinds.map GKSet.clear
    enabledKinds := lo.enabledKinds.map GKSet.clear
    disabledKinds := lo.disabledKinds.map GKSet.clear
    decodedTile := none
    isFinished := false }

/-- Embedding of `dispose()`: releases the captured payload only. -/
def disposeLoader (lo : LoaderState) : LoaderState :=
  { lo with decodedTile := none }

/-- JavaScript `Object.assign(target, source)` applied to two
`GeometryKindSet` objects: it copies the source's own enumerable
properties onto the target and returns the target — but a `Set`'s
elements are kept in internal slots, not own enumerable properties, so
no element is transferred and the result is the unchanged target. -/
def objectAssign (target _source : GKSet) : GKSet :=
  target

/-- Embedding of the private `setGeometryKinds`: for each supplied
(non-`undefined`) axis, `Object.assign`s the supplied set onto the
stored set, allocating a fresh empty set first when no stored set
exists (`this.m_enabledKinds ?? new GeometryKindSet()`). -/
def setGeometryKinds (lo : LoaderState)
    (enabledKinds disabledKinds : Option GKSet) (fresh : Nat) :
    LoaderState × Nat :=
  let en :=
    match enabledKinds with
    | none => (lo.enabledKinds, fresh)
    | some es =>
        match lo.enabledKinds with
        | some tgt => (some (objectAssign tgt es), fresh)
        | none => (some (objectAssign { id := fresh, elems := ∅ } es), fresh + 1)
  let dis :=
    match disabledKinds with
    | none => (lo.disabledKinds, en.2)
    | some ds =>
        match lo.disabledKinds with
        | some tgt => (some (objectAssign tgt ds), en.2)
        | none => (some (objectAssign { id := en.2, elems := ∅ } ds), en.2 + 1)
  ({ lo with enabledKinds := en.1, disabledKinds := dis.1 }, dis.2)

/-- Embedding of `setDecodedTile`: stores the payload and (the payload
being always defined) computes the available kinds from it, memoizing
kinds into the payload's techniques.  Returns the new loader state, the
processed payload (the same object the source returns) and the
allocation counter. -/
def setDecodedTile (lo : LoaderState) (dt : DecodedTile) (fresh : Nat) :
    LoaderState × DecodedTile × Nat :=
  let r := prepareAvailableGeometryKinds dt fresh
  ({ lo with
      decodedTile := some r.2.1
      availableGeometryKinds := some r.1 },
    r.2.1, r.2.2)

/-- Reference identity (`===`) between two optional set objects:
`undefined === undefined` and identity of the allocated objects
otherwise. -/
def sameRef (a b : Option GKSet) : Bool :=
  match a, b with
  | none, none => true
  | some x, some y => x.id = y.id
  | _, _ => false

/-- A configuration axis counts as empty when the set is `undefined` or
has size zero, mirroring `(s === undefined || s.size === 0)`. -/
def emptyish (o : Option GKSet) : Bool :=
  match o with
  | none => true
  | some s => s.size = 0

/-- The containment check on one axis once both sides are known to be
defined: `newKinds.has(storedKinds)`.  Used only when both are `some`. -/
def hasAllOpt (a b : Option GKSet) : Bool :=
  match a, b with
  | some x, some y => x.hasAllOf y
  | _, _ => false

/-- Embedding of the private `compareGeometryKinds`: compares the
supplied enabled/disabled kinds against the stored ones — identical
references or empty/undefined axes short-circuit, and a remaining
non-empty axis is compared by containment
(`enabledKinds.has(this.m_enabledKinds)`), returning `false` on the
first difference found. -/
def compareGeometryKinds (lo : LoaderState)
    (enabledKinds disabledKinds : Option GKSet) : Bool :=
  let enabledSame := sameRef lo.enabledKinds enabledKinds
  let disabledSame := sameRef lo.disabledKinds disabledKinds
  if enabledSame && disabledSame then
    true
  else
    let enabledEmpty := emptyish lo.enabledKinds && emptyish enabledKinds
    let disabledEmpty := emptyish lo.disabledKinds && emptyish disabledKinds
    if (enabledEmpty && disabledEmpty) || (enabledSame && disabledEmpty) ||
        (disabledSame && enabledEmpty) then
      true
    else if !enabledEmpty &&
        (enabledKinds.isNone || lo.enabledKinds.isNone) then
      false
    else if !enabledEmpty && !hasAllOpt enabledKinds lo.enabledKinds then
      false
    else if !disabledEmpty &&
        (disabledKinds.isNone || lo.disabledKinds.isNone) then
      false
    else if !disabledEmpty && !hasAllOpt disabledKinds lo.disabledKinds then
      false
    else
      true

/-- Embedding of the private `prepareForRender`: when no payload is
captured (a sanity guard) finish immediately, otherwise submit one
build task to the shared queue. -/
def prepareForRender (w : World) : World :=
  match w.loader.decodedTile with
  | none => finishLoading w
  | some _ => { w with queueLen := w.queueLen + 1 }

/-- Embedding of `update(enabledKinds, disabledKinds)`: the source's
short-circuiting check sequence — finished, discard, no-data finish,
kind-change reset, and the new-cycle branch (process techniques, record
kinds, capture the payload, submit one task). -/
def update (w : World) (enabledKinds disabledKinds : Option GKSet) : World :=
  if w.loader.isFinished then
    w
  else
    let d := discardNeedlessTile w
    if d.2 then
      d.1
    else if w.tile.tileLoaderFinished && w.tile.decodedTile.isNone then
      finishLoading w
    else
      let w2 :=
        if geometryCreationPending w.loader &&
            !compareGeometryKinds w.loader enabledKinds disabledKinds then
          { w with loader := resetLoader w.loader }
        else
          w
      match w2.tile.decodedTile with
      | some dt =>
          if !geometryCreationPending w2.loader then
            let w3 :=
              { w2 with processTechniquesCalls := w2.processTechniquesCalls + 1 }
            let sk := setGeometryKinds w3.loader enabledKinds disabledKinds w3.freshId
            let sd := setDecodedTile sk.1 dt sk.2
            prepareForRender
              { w3 with
                loader := sd.1
                tile := { w3.tile with decodedTile := some sd.2.1 }
                freshId := sd.2.2 }
          else
            w2
      | none => w2

/-- Embedding of the queued action `prepare`: finish immediately when
no payload is captured (the defensive guard), re-run the discard check,
then clear the tile, run the external geometry creation
(`initDecodedTile`, `createAllGeometries`), finish and request a
re-render. -/
def prepareAction (w : World)
    (_enabledKinds _disabledKinds : Option GKSet) : World :=
  match w.loader.decodedTile with
  | none => finishLoading w
  | some _ =>
      let d := discardNeedlessTile w
      if d.2 then
        d.1
      else
        let w2 :=
          { d.1 with
            tileClearCalls := d.1.tileClearCalls + 1
            initDecodedTileCalls := d.1.initDecodedTileCalls + 1
            createAllGeometriesCalls := d.1.createAllGeometriesCalls + 1 }
        let w3 := finishLoading w2
        { w3 with requestUpdateCalls := w3.requestUpdateCalls + 1 }

/-- World-level `setDecodedTile`, as invoked by the owning tile when a
decode arrives: updates the loader and the allocation counter. -/
def setDecodedTileW (w : World) (dt : DecodedTile) : World :=
  let r := setDecodedTile w.loader dt w.freshId
  { w with loader := r.1, freshId := r.2.2 }

/-- The contents of an optional kind set, with `undefined` read as the
empty set — the notion of logical equivalence the spec uses ("undefined
and an empty set are equivalent to each other"). -/
def elemsOf (o : Option GKSet) : Finset GeometryKind :=
  match o with
  | none => ∅
  | some s => s.elems

/-- The invariant of claim C9: a finished controller holds no decoded
payload. -/
def finishedInvariant (w : World) : Prop :=
  w.loader.isFinished = true → w.loader.decodedTile = none

theorem finishedInvariant_finishLoading (w : World) :
    finishedInvariant (finishLoading w) := by
  intro _
  rfl

theorem finishedInvariant_discard (w : World) (h : finishedInvariant w) :
    finishedInvariant (discardNeedlessTile w).1 := by
  unfold discardNeedlessTile
  split
  · exact finishedInvariant_finishLoading _
  · split
    · exact finishedInvariant_finishLoading _
    · exact h

theorem discardNeedlessTile_cases (w : World) :
    ((discardNeedlessTile w).2 = true ∧
      ∃ wx, (discardNeedlessTile w).1 = finishLoading wx) ∨
    ((discardNeedlessTile w).2 = false ∧ (discardNeedlessTile w).1 = w) := by
  unfold discardNeedlessTile
  split
  · exact Or.inl ⟨rfl, _, rfl⟩
  · split
    · exact Or.inl ⟨rfl, _, rfl⟩
    · exact Or.inr ⟨rfl, rfl⟩

theorem setGeometryKinds_fst_isFinished (lo : LoaderState)
    (e d : Option GKSet) (f : Nat) :
    (setGeometryKinds lo e d f).1.isFinished = lo.isFinished := rfl

theorem setGeometryKinds_fst_decodedTile (lo : LoaderState)
    (e d : Option GKSet) (f : Nat) :
    (setGeometryKinds lo e d f).1.decodedTile = lo.decodedTile := rfl

theorem setDecodedTile_fst_isFinished (lo : LoaderState)
    (dt : DecodedTile) (f : Nat) :
    (setDecodedTile lo dt f).1.isFinished = lo.isFinished := rfl

theorem setDecodedTile_fst_decodedTile (lo : LoaderState)
    (dt : DecodedTile) (f : Nat) :
    (setDecodedTile lo dt f).1.decodedTile =
      some (prepareAvailableGeometryKinds dt f).2.1 := rfl

theorem setDecodedTile_fst_enabledKinds (lo : LoaderState)
    (dt : DecodedTile) (f : Nat) :
    (setDecodedTile lo dt f).1.enabledKinds = lo.enabledKinds := rfl

theorem setDecodedTile_fst_disabledKinds (lo : LoaderState)
    (dt : DecodedTile) (f : Nat) :
    (setDecodedTile lo dt f).1.disabledKinds = lo.disabledKinds := rfl

theorem prepareForRender_of_some (w : World) (x : DecodedTile)
    (h : w.loader.decodedTile = some x) :
    prepareForRender w = { w with queueLen := w.queueLen + 1 } := by
  unfold prepareForRender
  rw [h]

theorem update_eq_of_finished (w : World) (e d : Option GKSet)
    (h : w.loader.isFinished = true) : update w e d = w := by
  unfold update
  simp [h]

theorem update_isFinished_cases (w : World) (e d : Option GKSet)
    (h1 : w.loader.isFinished = false) :
    (update w e d).loader.isFinished = false ∨
    ∃ wx, update w e d = finishLoading wx := by
  unfold update
  simp only [h1, Bool.false_eq_true, if_false]
  rcases discardNeedlessTile_cases w with ⟨hd2, wx, hd1⟩ | ⟨hd2, hd1⟩
  · rw [hd2]
    simp only [if_true]
    exact Or.inr ⟨wx, hd1⟩
  · rw [hd2]
    simp only [Bool.false_eq_true, if_false]
    split
    · exact Or.inr ⟨w, rfl⟩
    · by_cases hcmp :
          (geometryCreationPending w.loader &&
            !compareGeometryKinds w.loader e d) = true
      · simp only [hcmp, if_true]
        rcases htd : w.tile.decodedTile with _ | dt
        · simp only [htd]
          exact Or.inl rfl
        · simp only [htd, geometryCreationPending, resetLoader]
          simp only [Option.isSome_none, Bool.and_false, Bool.not_false, if_true]
          rw [prepareForRender_of_some _ _ (by rw [setDecodedTile_fst_decodedTile])]
          exact Or.inl (by
            show (setDecodedTile _ _ _).1.isFinished = false
            rw [setDecodedTile_fst_isFinished, setGeometryKinds_fst_isFinished])
      · simp only [Bool.not_eq_true] at hcmp
        simp only [hcmp, Bool.false_eq_true, if_false]
        rcases htd : w.tile.decodedTile with _ | dt
        · exact Or.inl h1
        · by_cases hp : geometryCreationPending w.loader = true
          · simp only [hp, Bool.not_true, Bool.false_eq_true, if_false]
            exact Or.inl h1
          · simp only [Bool.not_eq_true] at hp
            simp only [hp, Bool.not_false, if_true]
            rw [prepareForRender_of_some _ _ (by rw [setDecodedTile_fst_decodedTile])]
            exact Or.inl (by
              show (setDecodedTile _ _ _).1.isFinished = false
              rw [setDecodedTile_fst_isFinished, setGeometryKinds_fst_isFinished]
              exact h1)

theorem prepareAction_invariant (w : World) (e d : Option GKSet) :
    finishedInvariant (prepareAction w e d) := by
  unfold prepareAction
  split
  · exact finishedInvariant_finishLoading w
  · rcases discardNeedlessTile_cases w with ⟨hd2, wx, hd1⟩ | ⟨hd2, hd1⟩
    · simp only [hd2, if_true, hd1]
      exact finishedInvariant_finishLoading wx
    · simp only [hd2, Bool.false_eq_true, if_false, hd1]
      exact fun _ => rfl

/-- C7: once the controller's `isFinished` flag is true, a call to
`update`, with any kind configuration, changes no controller, tile or
collaborator state and submits nothing to the queue: the resulting
world is the old one. -/
theorem update_noop_when_finished (w : World) (e d : Option GKSet)
    (h : w.loader.isFinished = true) : update w e d = w := by
  unfold update
  simp [h]

/-- Witness for C7 at a concrete finished controller. -/
theorem update_noop_when_finished_witness :
    update ⟨⟨none, true, none, none, none⟩, ⟨true, false, none, false⟩,
      0, 0, 0, 0, 0, 0, 0, 0, 0, 0⟩ none none =
    ⟨⟨none, true, none, none, none⟩, ⟨true, false, none, false⟩,
      0, 0, 0, 0, 0, 0, 0, 0, 0, 0⟩ :=
  update_noop_when_finished _ none none rfl

/-- C8: when the queued build action runs with no decoded payload
captured, it performs an immediate finish (controller finished, tile
notified once) and calls no geometry-creation routine. -/
theorem prepare_missing_payload_finishes (w : World) (e d : Option GKSet)
    (h : w.loader.decodedTile = none) :
    prepareAction w e d = finishLoading w ∧
    (prepareAction w e d).loader.isFinished = true ∧
    (prepareAction w e d).createAllGeometriesCalls = w.createAllGeometriesCalls ∧
    (prepareAction w e d).loadingFinishedCalls = w.loadingFinishedCalls + 1 := by
  unfold prepareAction
  rw [h]
  exact ⟨rfl, rfl, rfl, rfl⟩

/-- Witness for C8 at a concrete controller holding no payload. -/
theorem prepare_missing_payload_finishes_witness :
    (prepareAction ⟨⟨none, false, none, none, none⟩,
        ⟨true, false, none, false⟩, 0, 0, 0, 0, 0, 0, 0, 0, 0, 0⟩
      none none).loader.isFinished = true :=
  (prepare_missing_payload_finishes _ none none rfl).2.1

/-- C10: after `reset()` the controller is not finished, holds no
payload, and every kind set that existed before the call is still
defined but was emptied in place — the same set object (same identity)
now has size 0, so a reference previously obtained through the
`availableGeometryKinds` getter observes the emptying. -/
theorem reset_clears_in_place (lo : LoaderState) :
    (resetLoader lo).isFinished = false ∧
    (resetLoader lo).decodedTile = none ∧
    (∀ s, lo.availableGeometryKinds = some s →
      (resetLoader lo).availableGeometryKinds = some { s with elems := ∅ } ∧
        GKSet.size { s with elems := ∅ } = 0) ∧
    (∀ s, lo.enabledKinds = some s →
      (resetLoader lo).enabledKinds = some { s with elems := ∅ } ∧
        GKSet.size { s with elems := ∅ } = 0) ∧
    (∀ s, lo.disabledKinds = some s →
      (resetLoader lo).disabledKinds = some { s with elems := ∅ } ∧
        GKSet.size { s with elems := ∅ } = 0) := by
  refine ⟨rfl, rfl, ?_, ?_, ?_⟩ <;>
    · intro s h
      unfold resetLoader
      rw [h]
      exact ⟨rfl, by simp [GKSet.size]⟩

/-- Witness for C10 at a concrete loader with all three sets defined. -/
theorem reset_clears_in_place_witness :
    (resetLoader ⟨some ⟨[]⟩, true, some ⟨0, {GeometryKind.Area}⟩,
        some ⟨1, {GeometryKind.Line}⟩, some ⟨2, {GeometryKind.Label}⟩⟩).isFinished
        = false ∧
    (resetLoader ⟨some ⟨[]⟩, true, some ⟨0, {GeometryKind.Area}⟩,
        some ⟨1, {GeometryKind.Line}⟩,
        some ⟨2, {GeometryKind.Label}⟩⟩).availableGeometryKinds =
      some ⟨0, ∅⟩ := by
  have h := reset_clears_in_place ⟨some ⟨[]⟩, true,
    some ⟨0, {GeometryKind.Area}⟩, some ⟨1, {GeometryKind.Line}⟩,
    some ⟨2, {GeometryKind.Label}⟩⟩
  exact ⟨h.1, (h.2.2.1 _ rfl).1⟩

/-- C2: the spec says the stored enabled/disabled kind sets accumulate
the supplied kinds by union, but the code merges with
`Object.assign(targetSet, sourceSet)`, which copies no `Set` elements:
after supplying enabled kinds `{Area}` to a fresh controller, the
stored enabled set is a defined but empty set, not the union `{Area}`. -/
theorem setGeometryKinds_drops_elements :
    (setGeometryKinds ⟨none, false, none, none, none⟩
        (some ⟨7, {GeometryKind.Area}⟩) none 0).1.enabledKinds = some ⟨0, ∅⟩ ∧
    ({GeometryKind.Area} : Finset GeometryKind) ≠ ∅ := by
  constructor
  · rfl
  · decide

/-- C5: when `update` is called on a not-yet-finished controller whose
tile is invisible, the controller ends finished, the visible tile set's
`disposeTile` is called exactly once, and no task is submitted. -/
theorem invisible_tile_discarded (w : World) (e d : Option GKSet)
    (hf : w.loader.isFinished = false) (hv : w.tile.isVisible = false) :
    (update w e d).loader.isFinished = true ∧
    (update w e d).disposeTileCalls = w.disposeTileCalls + 1 ∧
    (update w e d).queueLen = w.queueLen := by
  unfold update discardNeedlessTile
  simp [hf, hv, finishLoading]

/-- Witness for C5 at a concrete invisible tile. -/
theorem invisible_tile_discarded_witness :
    (update ⟨⟨none, false, none, none, none⟩, ⟨false, false, none, false⟩,
      0, 0, 0, 0, 0, 0, 0, 0, 0, 0⟩ none none).disposeTileCalls = 1 :=
  (invisible_tile_discarded _ none none rfl rfl).2.1

/-- C6: for a technique without a declared kind, `compileGeometryKind`
derives Area for fill, Line for the line family, Building for extruded
polygons, Label for poi/line-marker/text, and All otherwise, writes the
derived value into the technique, and a second call on the memoized
technique returns the same value without further change. -/
theorem compileGeometryKind_defaults (t : Technique) (f f2 : Nat)
    (h : t.kind = none) :
    ∃ k : GeometryKind,
      compileGeometryKind t f =
        ({ t with kind := some (TechKind.single k) }, KindOrSet.kind k, f) ∧
      compileGeometryKind { t with kind := some (TechKind.single k) } f2 =
        ({ t with kind := some (TechKind.single k) }, KindOrSet.kind k, f2) ∧
      (isFillTechnique t = true → k = GeometryKind.Area) ∧
      ((isLineTechnique t || isSolidLineTechnique t || isSegmentsTechnique t ||
          isExtrudedLineTechnique t) = true → k = GeometryKind.Line) ∧
      (isExtrudedPolygonTechnique t = true → k = GeometryKind.Building) ∧
      ((isPoiTechnique t || isLineMarkerTechnique t || isTextTechnique t) = true →
        k = GeometryKind.Label) ∧
      ((isFillTechnique t || isLineTechnique t || isSolidLineTechnique t ||
          isSegmentsTechnique t || isExtrudedLineTechnique t ||
          isExtrudedPolygonTechnique t || isPoiTechnique t ||
          isLineMarkerTechnique t || isTextTechnique t) = false →
        k = GeometryKind.All) := by
  rcases t with ⟨nm, kd⟩
  cases h
  cases nm <;>
    exact ⟨_, rfl, rfl, by decide, by decide, by decide, by decide, by decide⟩

/-- Witness for C6 at a concrete solid-line technique. -/
theorem compileGeometryKind_defaults_witness :
    ∃ k : GeometryKind,
      compileGeometryKind ⟨TechniqueName.solidLine, none⟩ 0 =
        (⟨TechniqueName.solidLine, some (TechKind.single k)⟩,
          KindOrSet.kind k, 0) ∧
      k = GeometryKind.Line := by
  obtain ⟨k, h1, _, _, h4, _⟩ :=
    compileGeometryKind_defaults ⟨TechniqueName.solidLine, none⟩ 0 5 rfl
  exact ⟨k, h1, h4 (by decide)⟩

/-- C9 amended: the finished-implies-no-payload invariant is preserved
by `update`, by the queued build action, by `reset`, by `dispose`, and
by `setDecodedTile` when the controller is not finished; calling
`setDecodedTile` on an already finished controller is the one operation
that can violate it (see the counterexample). -/
theorem finished_implies_no_payload (w : World) (e d : Option GKSet)
    (dt : DecodedTile) (h : finishedInvariant w) :
    finishedInvariant (update w e d) ∧
    finishedInvariant (prepareAction w e d) ∧
    finishedInvariant { w with loader := resetLoader w.loader } ∧
    finishedInvariant { w with loader := disposeLoader w.loader } ∧
    (w.loader.isFinished = false → finishedInvariant (setDecodedTileW w dt)) := by
  refine ⟨?_, prepareAction_invariant w e d, ?_, ?_, ?_⟩
  · rcases hfin : w.loader.isFinished with _ | _
    · rcases update_isFinished_cases w e d hfin with hleft | ⟨wx, hright⟩
      · intro hcontra
        rw [hleft] at hcontra
        exact absurd hcontra (by simp)
      · rw [hright]
        exact finishedInvariant_finishLoading wx
    · rw [update_eq_of_finished w e d hfin]
      exact h
  · intro hcontra
    simp [resetLoader] at hcontra
  · intro _
    rfl
  · intro hnf hcontra
    simp only [setDecodedTileW, setDecodedTile] at hcontra
    simp only [setDecodedTileW]
    exact absurd hcontra (by simp [setDecodedTile, hnf])

/-- C9 counterexample: `setDecodedTile` on an already finished
controller leaves `isFinished` true while installing a payload, so the
controller is finished and holds a decoded payload at once. -/
theorem setDecodedTile_breaks_invariant :
    (setDecodedTileW
        ⟨⟨none, true, none, none, none⟩, ⟨true, false, none, false⟩,
          0, 0, 0, 0, 0, 0, 0, 0, 0, 0⟩
        ⟨[]⟩).loader.isFinished = true ∧
    (setDecodedTileW
        ⟨⟨none, true, none, none, none⟩, ⟨true, false, none, false⟩,
          0, 0, 0, 0, 0, 0, 0, 0, 0, 0⟩
        ⟨[]⟩).loader.decodedTile ≠ none := by
  constructor
  · rfl
  · decide

/-- Witness for C9 at a concrete not-finished controller. -/
theorem finished_implies_no_payload_witness :
    finishedInvariant
      (update ⟨⟨none, false, none, none, none⟩, ⟨true, false, none, false⟩,
        0, 0, 0, 0, 0, 0, 0, 0, 0, 0⟩ none none) :=
  (finished_implies_no_payload _ none none ⟨[]⟩ (fun hc => by cases hc)).1

theorem compare_nonempty_enabled_axis (lo : LoaderState) (se ne : GKSet)
    (nd : Option GKSet)
    (hse : lo.enabledKinds = some se)
    (hne1 : se.elems ≠ ∅) (hne2 : ne.elems ≠ ∅)
    (hid : se.id ≠ ne.id)
    (hd : lo.disabledKinds = nd ∨
      (emptyish lo.disabledKinds = true ∧ emptyish nd = true)) :
    compareGeometryKinds lo (some ne) nd = decide (se.elems ⊆ ne.elems) := by
  rcases hd with hd | ⟨hd1, hd2⟩
  · rcases hnd : nd with _ | x
    · rw [hnd] at hd
      simp [compareGeometryKinds, hse, hd, sameRef, emptyish, GKSet.size,
        hasAllOpt, GKSet.hasAllOf, Finset.card_eq_zero, hne1, hne2, hid]
    · rw [hnd] at hd
      simp [compareGeometryKinds, hse, hd, sameRef, emptyish, GKSet.size,
        hasAllOpt, GKSet.hasAllOf, Finset.card_eq_zero, hne1, hne2, hid]
  · simp only [emptyish, GKSet.size, Finset.card_eq_zero] at hd1 hd2
    simp [compareGeometryKinds, hse, sameRef, emptyish, GKSet.size,
      hasAllOpt, GKSet.hasAllOf, Finset.card_eq_zero, hne1, hne2, hid, hd1, hd2]

theorem compare_nonempty_disabled_axis (lo : LoaderState) (sd nd : GKSet)
    (e2 : Option GKSet)
    (hsd : lo.disabledKinds = some sd)
    (hne1 : sd.elems ≠ ∅) (hne2 : nd.elems ≠ ∅)
    (hid : sd.id ≠ nd.id)
    (he : lo.enabledKinds = e2 ∨
      (emptyish lo.enabledKinds = true ∧ emptyish e2 = true)) :
    compareGeometryKinds lo e2 (some nd) = decide (sd.elems ⊆ nd.elems) := by
  rcases he with he | ⟨he1, he2⟩
  · rcases hee : e2 with _ | x
    · rw [hee] at he
      simp [compareGeometryKinds, hsd, he, sameRef, emptyish, GKSet.size,
        hasAllOpt, GKSet.hasAllOf, Finset.card_eq_zero, hne1, hne2, hid]
    · rw [hee] at he
      simp [compareGeometryKinds, hsd, he, sameRef, emptyish, GKSet.size,
        hasAllOpt, GKSet.hasAllOf, Finset.card_eq_zero, hne1, hne2, hid]
  · simp only [emptyish, GKSet.size, Finset.card_eq_zero] at he1 he2
    simp [compareGeometryKinds, hsd, sameRef, emptyish, GKSet.size,
      hasAllOpt, GKSet.hasAllOf, Finset.card_eq_zero, hne1, hne2, hid, he1, he2]

/-- C1 amended: on whichever axis (enabled or disabled) the stored and
newly supplied sets are both non-empty and not reference-identical,
with the other axis matching (same reference, or both
empty/undefined), `compareGeometryKinds` reports the configurations
equivalent exactly when the NEWLY supplied set contains every element
of the stored set on that axis (`enabledKinds.has(this.m_enabledKinds)`
and `disabledKinds.has(this.m_disabledKinds)`) — containment in the
stored-contains-new direction alone is reported as a difference. -/
theorem compare_nonempty_axis (s n : GKSet)
    (hne1 : s.elems ≠ ∅) (hne2 : n.elems ≠ ∅) (hid : s.id ≠ n.id) :
    (∀ (lo : LoaderState) (nd : Option GKSet), lo.enabledKinds = some s →
      (lo.disabledKinds = nd ∨
        (emptyish lo.disabledKinds = true ∧ emptyish nd = true)) →
      compareGeometryKinds lo (some n) nd = decide (s.elems ⊆ n.elems)) ∧
    (∀ (lo : LoaderState) (e2 : Option GKSet), lo.disabledKinds = some s →
      (lo.enabledKinds = e2 ∨
        (emptyish lo.enabledKinds = true ∧ emptyish e2 = true)) →
      compareGeometryKinds lo e2 (some n) = decide (s.elems ⊆ n.elems)) :=
  ⟨fun lo nd hse hd =>
      compare_nonempty_enabled_axis lo s n nd hse hne1 hne2 hid hd,
    fun lo e2 hsd he =>
      compare_nonempty_disabled_axis lo s n e2 hsd hne1 hne2 hid he⟩

/-- C1 counterexample: stored enabled set `{Area, Line}` (one object),
new enabled set `{Area}` (another object), disabled axis undefined on
both sides.  The stored set contains every element of the new set —
the claim's "one set contains every element of the other" holds, both
sets are non-empty and not reference-identical — yet
`compareGeometryKinds` reports a difference. -/
theorem compare_containment_counterexample :
    (({GeometryKind.Area} : Finset GeometryKind) ⊆
        {GeometryKind.Area, GeometryKind.Line}) ∧
    ({GeometryKind.Area, GeometryKind.Line} : Finset GeometryKind) ≠ ∅ ∧
    ({GeometryKind.Area} : Finset GeometryKind) ≠ ∅ ∧
    (0 : Nat) ≠ 1 ∧
    compareGeometryKinds
      ⟨none, false, none, some ⟨0, {GeometryKind.Area, GeometryKind.Line}⟩, none⟩
      (some ⟨1, {GeometryKind.Area}⟩) none = false := by
  decide

/-- Witness for the amended C1 at concrete non-empty sets, on the
enabled axis and on the disabled axis. -/
theorem compare_nonempty_axis_witness :
    compareGeometryKinds
      ⟨none, false, none, some ⟨0, {GeometryKind.Area}⟩, none⟩
      (some ⟨1, {GeometryKind.Area, GeometryKind.Line}⟩) none =
      decide (({GeometryKind.Area} : Finset GeometryKind) ⊆
        {GeometryKind.Area, GeometryKind.Line}) ∧
    compareGeometryKinds
      ⟨none, false, none, none, some ⟨0, {GeometryKind.Area}⟩⟩
      none (some ⟨1, {GeometryKind.Area, GeometryKind.Line}⟩) =
      decide (({GeometryKind.Area} : Finset GeometryKind) ⊆
        {GeometryKind.Area, GeometryKind.Line}) :=
  ⟨(compare_nonempty_axis ⟨0, {GeometryKind.Area}⟩
      ⟨1, {GeometryKind.Area, GeometryKind.Line}⟩
      (by decide) (by decide) (by decide)).1
      ⟨none, false, none, some ⟨0, {GeometryKind.Area}⟩, none⟩ none
      rfl (Or.inl rfl),
    (compare_nonempty_axis ⟨0, {GeometryKind.Area}⟩
      ⟨1, {GeometryKind.Area, GeometryKind.Line}⟩
      (by decide) (by decide) (by decide)).2
      ⟨none, false, none, none, some ⟨0, {GeometryKind.Area}⟩⟩ none
      rfl (Or.inl rfl)⟩

/-- C4: the failing trace.  A first `update` with enabled kinds `{Area}`
on a visible tile with a decoded payload leaves a build pending (one
task queued) and, because `Object.assign` copied no elements, a stored
enabled set that is empty.  A second `update` with the materially
different enabled kinds `{Line}` is then a complete no-op — no reset
(the kind sets and the captured payload are untouched) and no fresh
submission — because `compareGeometryKinds` finds the empty stored set
contained in the new one. -/
theorem changed_kinds_not_detected :
    (update ⟨⟨none, false, none, none, none⟩,
        ⟨true, false, some ⟨[⟨TechniqueName.fill, none⟩]⟩, false⟩,
        0, 0, 0, 0, 0, 0, 0, 0, 0, 0⟩
      (some ⟨100, {GeometryKind.Area}⟩) none).loader.decodedTile.isSome = true ∧
    (update ⟨⟨none, false, none, none, none⟩,
        ⟨true, false, some ⟨[⟨TechniqueName.fill, none⟩]⟩, false⟩,
        0, 0, 0, 0, 0, 0, 0, 0, 0, 0⟩
      (some ⟨100, {GeometryKind.Area}⟩) none).queueLen = 1 ∧
    (update ⟨⟨none, false, none, none, none⟩,
        ⟨true, false, some ⟨[⟨TechniqueName.fill, none⟩]⟩, false⟩,
        0, 0, 0, 0, 0, 0, 0, 0, 0, 0⟩
      (some ⟨100, {GeometryKind.Area}⟩) none).loader.enabledKinds =
      some ⟨0, ∅⟩ ∧
    update
      (update ⟨⟨none, false, none, none, none⟩,
          ⟨true, false, some ⟨[⟨TechniqueName.fill, none⟩]⟩, false⟩,
          0, 0, 0, 0, 0, 0, 0, 0, 0, 0⟩
        (some ⟨100, {GeometryKind.Area}⟩) none)
      (some ⟨101, {GeometryKind.Line}⟩) none =
    update ⟨⟨none, false, none, none, none⟩,
        ⟨true, false, some ⟨[⟨TechniqueName.fill, none⟩]⟩, false⟩,
        0, 0, 0, 0, 0, 0, 0, 0, 0, 0⟩
      (some ⟨100, {GeometryKind.Area}⟩) none := by
  decide

theorem compare_eq_true_of_checks (lo : LoaderState) (e2 d2 : Option GKSet)
    (h3 : (!(emptyish lo.enabledKinds && emptyish e2) &&
      (e2.isNone || lo.enabledKinds.isNone)) = false)
    (h4 : (!(emptyish lo.enabledKinds && emptyish e2) &&
      !hasAllOpt e2 lo.enabledKinds) = false)
    (h5 : (!(emptyish lo.disabledKinds && emptyish d2) &&
      (d2.isNone || lo.disabledKinds.isNone)) = false)
    (h6 : (!(emptyish lo.disabledKinds && emptyish d2) &&
      !hasAllOpt d2 lo.disabledKinds) = false) :
    compareGeometryKinds lo e2 d2 = true := by
  simp only [compareGeometryKinds]
  split
  · rfl
  · split
    · rfl
    · simp only [h3, h4, h5, h6, Bool.false_eq_true, if_false]

theorem axis_checks_false (st new : Option GKSet)
    (hst : emptyish st = true)
    (hnew : elemsOf new ≠ ∅ → st.isSome = true) :
    (!(emptyish st && emptyish new) && (new.isNone || st.isNone)) = false ∧
    (!(emptyish st && emptyish new) && !hasAllOpt new st) = false := by
  rcases st with _ | s
  · have hne : elemsOf new = ∅ := by
      by_contra hh
      exact absurd (hnew hh) (by simp)
    rcases new with _ | x
    · simp [emptyish]
    · have hx : x.elems = ∅ := by simpa [elemsOf] using hne
      simp [emptyish, GKSet.size, hx]
  · have hse : s.elems = ∅ := by
      simpa [emptyish, GKSet.size, Finset.card_eq_zero] using hst
    rcases new with _ | x
    · simp [emptyish, GKSet.size, hse]
    · by_cases hx : x.elems = ∅
      · simp [emptyish, GKSet.size, hx, hse]
      · simp [emptyish, GKSet.size, hasAllOpt, GKSet.hasAllOf, hse, hx]

theorem compare_true_of_emptyish (lo : LoaderState) (e2 d2 : Option GKSet)
    (hen : emptyish lo.enabledKinds = true)
    (hdis : emptyish lo.disabledKinds = true)
    (he : elemsOf e2 ≠ ∅ → lo.enabledKinds.isSome = true)
    (hd : elemsOf d2 ≠ ∅ → lo.disabledKinds.isSome = true) :
    compareGeometryKinds lo e2 d2 = true := by
  obtain ⟨h3, h4⟩ := axis_checks_false lo.enabledKinds e2 hen he
  obtain ⟨h5, h6⟩ := axis_checks_false lo.disabledKinds d2 hdis hd
  exact compare_eq_true_of_checks lo e2 d2 h3 h4 h5 h6

theorem discardNeedlessTile_of_relevant (w : World)
    (hvis : w.tile.isVisible = true) (hdisp : w.tile.disposed = false) :
    discardNeedlessTile w = (w, false) := by
  unfold discardNeedlessTile
  simp [hvis, hdisp]

theorem update_submit_facts (w : World) (dt : DecodedTile) (e d : Option GKSet)
    (hfin : w.loader.isFinished = false)
    (hvis : w.tile.isVisible = true)
    (hdisp : w.tile.disposed = false)
    (htd : w.tile.decodedTile = some dt)
    (hdec : w.loader.decodedTile = none) :
    update w e d =
      { w with
        processTechniquesCalls := w.processTechniquesCalls + 1,
        loader := (setDecodedTile (setGeometryKinds w.loader e d w.freshId).1 dt
          (setGeometryKinds w.loader e d w.freshId).2).1,
        tile := { w.tile with
          decodedTile := some (setDecodedTile
            (setGeometryKinds w.loader e d w.freshId).1 dt
            (setGeometryKinds w.loader e d w.freshId).2).2.1 },
        freshId := (setDecodedTile (setGeometryKinds w.loader e d w.freshId).1 dt
          (setGeometryKinds w.loader e d w.freshId).2).2.2,
        queueLen := w.queueLen + 1 } := by
  unfold update
  rw [discardNeedlessTile_of_relevant w hvis hdisp]
  simp only [hfin, Bool.false_eq_true, if_false, htd, hdec,
    geometryCreationPending, Option.isNone_some, Option.isSome_none,
    Bool.and_false, Bool.not_false, Bool.false_and, Bool.and_true, if_true]
  rw [prepareForRender_of_some _ _ (by rw [setDecodedTile_fst_decodedTile])]

theorem update_noop_of_equivalent (w : World) (e2 d2 : Option GKSet)
    (hfin : w.loader.isFinished = false)
    (hvis : w.tile.isVisible = true)
    (hdisp : w.tile.disposed = false)
    (htd : w.tile.decodedTile.isSome = true)
    (hdec : w.loader.decodedTile.isSome = true)
    (hcmp : compareGeometryKinds w.loader e2 d2 = true) :
    update w e2 d2 = w := by
  obtain ⟨dt, hdt⟩ := Option.isSome_iff_exists.mp htd
  obtain ⟨pd, hpd⟩ := Option.isSome_iff_exists.mp hdec
  unfold update
  rw [discardNeedlessTile_of_relevant w hvis hdisp]
  simp only [hfin, Bool.false_eq_true, if_false, hdt, hpd, hcmp,
    geometryCreationPending, Option.isNone_some, Option.isSome_some,
    Bool.and_false, Bool.not_true, Bool.and_true, Bool.not_false,
    Bool.true_and, Bool.false_and, if_true, if_false]

theorem elemsOf_ne_empty_isSome (o : Option GKSet) (h : elemsOf o ≠ ∅) :
    o.isSome = true := by
  rcases o with _ | s
  · exact absurd rfl h
  · rfl

theorem setGeometryKinds_fst_kinds (lo : LoaderState) (e d : Option GKSet)
    (f : Nat)
    (hen : emptyish lo.enabledKinds = true)
    (hdis : emptyish lo.disabledKinds = true) :
    emptyish (setGeometryKinds lo e d f).1.enabledKinds = true ∧
    emptyish (setGeometryKinds lo e d f).1.disabledKinds = true ∧
    (e.isSome = true → (setGeometryKinds lo e d f).1.enabledKinds.isSome = true) ∧
    (d.isSome = true → (setGeometryKinds lo e d f).1.disabledKinds.isSome = true) := by
  rcases e with _ | es <;> rcases d with _ | ds <;>
    rcases hle : lo.enabledKinds with _ | s1 <;>
    rcases hld : lo.disabledKinds with _ | s2 <;>
    simp_all [setGeometryKinds, objectAssign, emptyish, GKSet.size]

/-- C3: on a visible, undisposed tile with a decoded payload, a first
`update` submits exactly one build task, and any second `update` before
the task runs whose configuration is logically equivalent (same
contents per axis, `undefined` read as empty) leaves the world
completely unchanged: no second submission, no reset.  The stored kind
sets are assumed empty-or-undefined, which holds in every reachable
controller state (they start `undefined`, `Object.assign` adds no
elements, and `reset` only empties them). -/
theorem single_task_in_flight (w : World) (dt : DecodedTile) (e d : Option GKSet)
    (hen : emptyish w.loader.enabledKinds = true)
    (hdis : emptyish w.loader.disabledKinds = true)
    (hdec : w.loader.decodedTile = none)
    (hfin : w.loader.isFinished = false)
    (hvis : w.tile.isVisible = true)
    (hdisp : w.tile.disposed = false)
    (htd : w.tile.decodedTile = some dt) :
    (update w e d).queueLen = w.queueLen + 1 ∧
    ∀ e2 d2, elemsOf e2 = elemsOf e → elemsOf d2 = elemsOf d →
      update (update w e d) e2 d2 = update w e d := by
  have hsub := update_submit_facts w dt e d hfin hvis hdisp htd hdec
  have hkinds := setGeometryKinds_fst_kinds w.loader e d w.freshId hen hdis
  constructor
  · rw [hsub]
  · intro e2 d2 he2 hd2
    apply update_noop_of_equivalent
    · rw [hsub]
      show (setDecodedTile _ _ _).1.isFinished = false
      rw [setDecodedTile_fst_isFinished, setGeometryKinds_fst_isFinished]
      exact hfin
    · rw [hsub]
      exact hvis
    · rw [hsub]
      exact hdisp
    · rw [hsub]
      rfl
    · rw [hsub]
      show (setDecodedTile _ _ _).1.decodedTile.isSome = true
      rw [setDecodedTile_fst_decodedTile]
      rfl
    · rw [hsub]
      apply compare_true_of_emptyish
      · show emptyish (setDecodedTile _ _ _).1.enabledKinds = true
        rw [setDecodedTile_fst_enabledKinds]
        exact hkinds.1
      · show emptyish (setDecodedTile _ _ _).1.disabledKinds = true
        rw [setDecodedTile_fst_disabledKinds]
        exact hkinds.2.1
      · intro hne
        show (setDecodedTile _ _ _).1.enabledKinds.isSome = true
        rw [setDecodedTile_fst_enabledKinds]
        exact hkinds.2.2.1 (elemsOf_ne_empty_isSome e (he2 ▸ hne))
      · intro hne
        show (setDecodedTile _ _ _).1.disabledKinds.isSome = true
        rw [setDecodedTile_fst_disabledKinds]
        exact hkinds.2.2.2 (elemsOf_ne_empty_isSome d (hd2 ▸ hne))

/-- Witness for C3: a first `update` with enabled kinds `{Area}`
submits one task; a second `update` with content-equal configuration
(another `{Area}` object, plus an empty set where `undefined` was
supplied) changes nothing. -/
theorem single_task_in_flight_witness :
    (update ⟨⟨none, false, none, none, none⟩,
        ⟨true, false, some ⟨[⟨TechniqueName.fill, none⟩]⟩, false⟩,
        0, 0, 0, 0, 0, 0, 0, 0, 0, 0⟩
      (some ⟨50, {GeometryKind.Area}⟩) none).queueLen = 0 + 1 ∧
    update
      (update ⟨⟨none, false, none, none, none⟩,
          ⟨true, false, some ⟨[⟨TechniqueName.fill, none⟩]⟩, false⟩,
          0, 0, 0, 0, 0, 0, 0, 0, 0, 0⟩
        (some ⟨50, {GeometryKind.Area}⟩) none)
      (some ⟨51, {GeometryKind.Area}⟩) (some ⟨52, ∅⟩) =
    update ⟨⟨none, false, none, none, none⟩,
        ⟨true, false, some ⟨[⟨TechniqueName.fill, none⟩]⟩, false⟩,
        0, 0, 0, 0, 0, 0, 0, 0, 0, 0⟩
      (some ⟨50, {GeometryKind.Area}⟩) none :=
  ⟨(single_task_in_flight ⟨⟨none, false, none, none, none⟩,
        ⟨true, false, some ⟨[⟨TechniqueName.fill, none⟩]⟩, false⟩,
        0, 0, 0, 0, 0, 0, 0, 0, 0, 0⟩ ⟨[⟨TechniqueName.fill, none⟩]⟩
      (some ⟨50, {GeometryKind.Area}⟩) none
      rfl rfl rfl rfl rfl rfl rfl).1,
    (single_task_in_flight ⟨⟨none, false, none, none, none⟩,
        ⟨true, false, some ⟨[⟨TechniqueName.fill, none⟩]⟩, false⟩,
        0, 0, 0, 0, 0, 0, 0, 0, 0, 0⟩ ⟨[⟨TechniqueName.fill, none⟩]⟩
      (some ⟨50, {GeometryKind.Area}⟩) none
      rfl rfl rfl rfl rfl rfl rfl).2
      (some ⟨51, {GeometryKind.Area}⟩) (some ⟨52, ∅⟩) rfl rfl⟩

end HarpGeometryLoader
